import Mathlib

/-!
Verification development for the speech-to-text upload application
(`src/app.py`).  The script is shallowly embedded: the module-level
configuration, the core function `analyze_media_with_apyhub`, and the
module-level UI flow (MIME fallback, size check, dispatch and display)
become Lean functions over explicit state.  Network traffic and UI
output are recorded in the result so that properties such as
"zero network calls" or "carries the status code" can be stated.
-/

namespace SpeechApp

/-! ## Python-style JSON values

`response.json()` produces a Python object; the code then navigates it
with `dict.get`.  We embed the value universe and the exact dynamic
semantics of the expression on line 89 of `app.py`, including the
`AttributeError` raised when `.get` is taken on a non-dict value. -/

inductive JsonVal where
  | jnull
  | jbool (b : Bool)
  | jnum (n : Int)
  | jstr (s : String)
  | jarr (xs : List JsonVal)
  | jobj (fields : List (String × JsonVal))

/-- Python `d.get(k)` on a dict with association-list fields. -/
def dictGet (fields : List (String × JsonVal)) (k : String) : Option JsonVal :=
  match fields with
  | [] => none
  | (k2, v) :: rest => if k2 = k then some v else dictGet rest k

/-- Python type name of a value, as it appears in an `AttributeError` text. -/
def pyTypeName : JsonVal → String
  | .jnull => "NoneType"
  | .jbool _ => "bool"
  | .jnum _ => "int"
  | .jstr _ => "str"
  | .jarr _ => "list"
  | .jobj _ => "dict"

/-- Message of the `AttributeError` raised by `v.get` when `v` is not a dict. -/
def noGetAttrMsg (v : JsonVal) : String :=
  "\x27" ++ pyTypeName v ++ "\x27 object has no attribute \x27get\x27"

/-- Exceptions that can escape the response-parsing code of
`analyze_media_with_apyhub` and reach its `except` clauses. -/
inductive PyExc where
  | attributeError (msg : String)

/-- Text of an exception, as interpolated by an f-string. -/
def excText : PyExc → String
  | .attributeError msg => msg

/-- Line 89 of `app.py`:
`transcript_data.get("data", {}).get("text", transcript_data.get("data"))`.
If `transcript_data` itself is not a dict, or `transcript_data.get("data", {})`
is not a dict (e.g. the transcript arrives as a plain string), the second
`.get` attribute access raises `AttributeError`. -/
def extractTranscript (td : JsonVal) : Except PyExc JsonVal :=
  match td with
  | .jobj fields =>
      match (dictGet fields "data").getD (.jobj []) with
      | .jobj inner => .ok ((dictGet inner "text").getD ((dictGet fields "data").getD .jnull))
      | v => .error (.attributeError (noGetAttrMsg v))
  | v => .error (.attributeError (noGetAttrMsg v))

/-- Python truthiness, used by `if not transcript_text:` on line 91. -/
def truthy : JsonVal → Bool
  | .jnull => false
  | .jbool b => b
  | .jnum n => !(n == 0)
  | .jstr s => !(s == "")
  | .jarr xs => !xs.isEmpty
  | .jobj fs => !fs.isEmpty

mutual

/-- Python `repr` of a value (used when a dict is interpolated into an
f-string such as the one on line 92). -/
def pyRepr : JsonVal → String
  | .jnull => "None"
  | .jbool true => "True"
  | .jbool false => "False"
  | .jnum n => toString n
  | .jstr s => "\x27" ++ s ++ "\x27"
  | .jarr xs => "[" ++ pyReprList xs ++ "]"
  | .jobj fs => "\x7b" ++ pyReprFields fs ++ "\x7d"

def pyReprList : List JsonVal → String
  | [] => ""
  | [v] => pyRepr v
  | v :: rest => pyRepr v ++ ", " ++ pyReprList rest

def pyReprFields : List (String × JsonVal) → String
  | [] => ""
  | [(k, v)] => "\x27" ++ k ++ "\x27: " ++ pyRepr v
  | (k, v) :: rest => "\x27" ++ k ++ "\x27: " ++ pyRepr v ++ ", " ++ pyReprFields rest

end

/-- Python `str` of a value, as interpolated into an f-string (a string
interpolates as itself, other values via their repr). -/
def pyStrOf : JsonVal → String
  | .jstr s => s
  | v => pyRepr v

/-! ## Base64 (line 45: `base64.b64encode(file_bytes).decode("utf-8")`) -/

def b64Alphabet : List Char :=
  "ABCDEFGHIJKLMNOPQRSTUVWXYZabcdefghijklmnopqrstuvwxyz0123456789+/".data

def b64Char (n : Nat) : Char := b64Alphabet.getD n 'A'

/-- Standard base64 of a byte list, with `=` padding, as `base64.b64encode`. -/
def b64encodeAux : List Nat → List Char
  | [] => []
  | [a] => [b64Char (a / 4), b64Char (a % 4 * 16), '=', '=']
  | [a, b] => [b64Char (a / 4), b64Char (a % 4 * 16 + b / 16), b64Char (b % 16 * 4), '=']
  | a :: b :: c :: rest =>
      b64Char (a / 4) :: b64Char (a % 4 * 16 + b / 16) ::
      b64Char (b % 16 * 4 + c / 64) :: b64Char (c % 64) :: b64encodeAux rest

def b64encodeStr (bs : List Nat) : String := String.mk (b64encodeAux bs)

/-! ## String helpers with Python semantics -/

/-- Python `needle in hay` for strings (substring containment), on char lists. -/
def hasSub (needle : List Char) : List Char → Bool
  | [] => needle.isEmpty
  | c :: rest => needle.isPrefixOf (c :: rest) || hasSub needle rest

/-- Python `s.startswith(pre)`. -/
def pyStartswith (pre s : String) : Bool := pre.data.isPrefixOf s.data

/-- Index of the last '.' in a char list, if any. -/
def lastDotPos : List Char → Option Nat
  | [] => none
  | c :: rest =>
      match lastDotPos rest with
      | some i => some (i + 1)
      | none => if c = '.' then some 0 else none

/-- Line 181: `os.path.splitext(name)[1].lower().replace(".", "")` for a bare
filename (no path separators).  `splitext` yields an extension only when the
last dot has some non-dot character before it (leading dots never start an
extension); lowering and dropping the single leading dot leaves the bare
extension token. -/
def extToken (name : String) : String :=
  match lastDotPos name.data with
  | some d =>
      if (name.data.take d).any (fun c => c ≠ '.') then
        String.mk ((name.data.drop (d + 1)).map Char.toLower)
      else ""
  | none => ""

/-- The fixed extension-to-MIME table of lines 182-188. -/
def extMimeTable (ext : String) : String :=
  if ext = "mp3" then "audio/mpeg"
  else if ext = "wav" then "audio/wav"
  else if ext = "mp4" then "video/mp4"
  else if ext = "mov" then "video/quicktime"
  else if ext = "m4a" then "audio/m4a"
  else if ext = "ogg" then "audio/ogg"
  else "application/octet-stream"

/-- Lines 176-188: MIME resolution.  `reported = none` models a `None`
content type.  The fallback triggers when the reported type is falsy or
contains the substring "octet-stream" (Python `in`). -/
def resolveMime (reported : Option String) (filename : String) : String :=
  let mt := reported.getD ""
  if mt = "" ∨ hasSub "octet-stream".data mt.data = true then
    let ext := extToken filename
    if ext = "mp3" then "audio/mpeg"
    else if ext = "wav" then "audio/wav"
    else if ext = "mp4" then "video/mp4"
    else if ext = "mov" then "video/quicktime"
    else if ext = "m4a" then "audio/m4a"
    else if ext = "ogg" then "audio/ogg"
    else "application/octet-stream"
  else mt

/-! ## Configuration (lines 20-26 of `app.py`) -/

def APYHUB_BASE_URL : String := "https://api.apyhub.com/"

/-- `urljoin` for a base ending in "/" and a relative path: concatenation. -/
def urljoin (base rel : String) : String := base ++ rel

def STT_ENDPOINT : String := urljoin APYHUB_BASE_URL "ai/convert/speech-to-text"

def MODEL_NAME : String := "apyhub-stt-standard"

/-! ## Uploaded file objects

Streamlit hands the handler a file-like object with a read cursor;
`analyze_media_with_apyhub` rewinds it (`seek(0)`) before reading. -/

structure FileObj where
  name : String
  bytes : List Nat
  pos : Nat

/-- `uploaded_file.size`: the byte length of the upload. -/
def FileObj.size (f : FileObj) : Nat := f.bytes.length

/-! ## Outbound requests and the provider stub -/

inductive ReqBody where
  /-- `data=json.dumps(payload)` with `Content-Type: application/json`. -/
  | jsonBody (v : JsonVal)
  /-- A multipart/form-data body: one file part (field name, filename,
  MIME type, raw bytes) plus plain form fields.  Never built by this
  program; present so that the multipart claim can be stated. -/
  | multipartBody (fieldName filename mime : String) (bytes : List Nat)
      (formFields : List (String × String))

structure HttpRequest where
  url : String
  headers : List (String × String)
  body : ReqBody
  timeout : Nat

/-- What the (stubbed) provider does with the single outbound call. -/
inductive TransportOutcome where
  /-- An HTTP response: status, reason phrase, raw text body, and the
  result of `response.json()` (`.error` models a JSON decode failure). -/
  | httpResponse (status : Nat) (reason : String) (text : String)
      (jsonResult : Except String JsonVal)
  /-- A `requests.exceptions.RequestException` (connection refused,
  timeout expiry, DNS failure) carrying its description. -/
  | requestFailure (desc : String)

/-- UI feedback emitted through `st.info` / `st.warning` / `st.error` /
`st.success`. -/
inductive UIMsg where
  | info (s : String)
  | warning (s : String)
  | error (s : String)
  | success (s : String)
deriving DecidableEq

/-- Everything one call of the core function produces: the returned pair
`(analysis_result_text, detected_language_code)`, the UI feedback, and
the outbound requests that were attempted. -/
structure RunLog where
  retVal : String × String
  msgs : List UIMsg
  sent : List HttpRequest

/-! ## Message texts of `analyze_media_with_apyhub` -/

def prepMsg (name : String) : String :=
  "Step 1/2: Preparing file **" ++ name ++ "** for ApyHub..."

def largeFileWarning : String :=
  "Warning: File is large. ApyHub API may require a different upload method (e.g., pre-signed URL) for files this size."

def callMsg : String :=
  "Step 2a/2: Calling ApyHub STT API at " ++ STT_ENDPOINT ++ "..."

/-- `str(e)` for the `HTTPError` raised by `response.raise_for_status()`:
"Client Error" for 400-499, "Server Error" for 500-599. -/
def httpErrorText (status : Nat) (reason : String) : String :=
  toString status
  ++ (if status < 500 then " Client Error: " else " Server Error: ")
  ++ reason ++ " for url: " ++ STT_ENDPOINT

def apiErrMsg (status : Nat) (reason text : String) : String :=
  "ApyHub API Call Failed (HTTP Error): " ++ httpErrorText status reason
  ++ ". Response: " ++ text

def netErrMsg (desc : String) : String := "Network/Timeout Error: " ++ desc

def unexpectedErrMsg (e : PyExc) : String :=
  "An unexpected error occurred: " ++ excText e

def noDataMsg (td : JsonVal) : String :=
  "ApyHub returned success but no transcript data. Full response: " ++ pyRepr td

def doneMsg (elapsed : String) : String :=
  "Transcription completed in " ++ elapsed ++ " seconds."

/-- Lines 105-112: the success markdown document. -/
def finalResult (transcript : String) : String :=
  "## 📝 Full Transcript (via ApyHub)\n"
  ++ transcript ++ "\n\n"
  ++ "## ✅ Key Point Summary (5 Points)\n"
  ++ "* **NOTE:** The summarization part requires a separate ApyHub AI call "
  ++ "(e.g., using a Text Summarization API) which is not implemented here. \n"
  ++ "* Please copy the transcript above and submit it to a text summarization tool."

/-- Lines 52-69: the JSON payload and the single request that
`requests.post` sends (line 78-83), with its fixed 300-second timeout. -/
def payloadJson (base64Content filename mime : String) : JsonVal :=
  .jobj
    [ ("input", .jobj
        [ ("type", .jstr "file")
        , ("file", .jstr base64Content)
        , ("filename", .jstr filename)
        , ("mimetype", .jstr mime) ])
    , ("output", .jobj [("type", .jstr "text")]) ]

def buildRequest (base64Content filename mime apiKey : String) : HttpRequest :=
  { url := STT_ENDPOINT
  , headers :=
      [ ("Authorization", "Token " ++ apiKey)
      , ("Content-Type", "application/json") ]
  , body := .jsonBody (payloadJson base64Content filename mime)
  , timeout := 300 }

/-- Lines 40-127 of `app.py`, as a function of the file name and the bytes
read: base64-encode, warn if the encoding exceeds 20 MiB, post the payload,
then follow the source control flow — `raise_for_status` diverts 4xx/5xx to
the `HTTPError` handler; a `RequestException` (transport failure, and in
current `requests` also a JSON decode failure) goes to the network handler;
the transcript extraction of line 89 may raise `AttributeError`, landing in
the generic handler; a falsy transcript yields the no-data return; otherwise
the success document is returned. -/
def analyzeCore (name : String) (fileBytes : List Nat) (mime apiKey : String)
    (prov : TransportOutcome) (elapsed : String) : RunLog :=
  let base64Content := b64encodeStr fileBytes
  let warns : List UIMsg :=
    if base64Content.length > 20 * 1024 * 1024 then [.warning largeFileWarning] else []
  let req := buildRequest base64Content name mime apiKey
  let pre : List UIMsg := [UIMsg.info (prepMsg name)] ++ warns ++ [UIMsg.info callMsg]
  match prov with
  | .requestFailure desc =>
      { retVal := ("Analysis failed due to network or timeout error.", "")
      , msgs := pre ++ [.error (netErrMsg desc)]
      , sent := [req] }
  | .httpResponse status reason text jsonResult =>
      if 400 ≤ status ∧ status < 600 then
        { retVal := ("Analysis failed due to API connection error.", "")
        , msgs := pre ++ [.error (apiErrMsg status reason text)]
        , sent := [req] }
      else
        match jsonResult with
        | .error emsg =>
            { retVal := ("Analysis failed due to network or timeout error.", "")
            , msgs := pre ++ [.error (netErrMsg emsg)]
            , sent := [req] }
        | .ok td =>
            match extractTranscript td with
            | .error e =>
                { retVal := ("Analysis failed due to an unexpected error.", "")
                , msgs := pre ++ [.error (unexpectedErrMsg e)]
                , sent := [req] }
            | .ok tt =>
                if truthy tt then
                  { retVal := (finalResult (pyStrOf tt), "Unknown")
                  , msgs := pre ++ [.success (doneMsg elapsed)]
                  , sent := [req] }
                else
                  { retVal := ("Analysis failed: No transcript received.", "")
                  , msgs := pre ++ [.error (noDataMsg td)]
                  , sent := [req] }

/-- `analyze_media_with_apyhub(uploaded_file, mime_type)`: rewinds the file
(line 43, `uploaded_file.seek(0)`), reads it (line 44), and runs the core;
the returned file object has its cursor at the end. -/
def analyze_media_with_apyhub (f : FileObj) (mime apiKey : String)
    (prov : TransportOutcome) (elapsed : String) : RunLog × FileObj :=
  let rewound : FileObj := { f with pos := 0 }
  let fileBytes := rewound.bytes.drop rewound.pos
  (analyzeCore f.name fileBytes mime apiKey prov elapsed,
   { rewound with pos := rewound.bytes.length })

/-! ## The module-level UI flow (lines 175-208) -/

inductive Display where
  /-- `st.markdown(analysis_result)` plus the closing `st.success` note. -/
  | rendered (md : String) (note : String)
  /-- A terminal `st.error` box. -/
  | errorBox (s : String)
deriving DecidableEq

def sizeLimitMsg : String :=
  "File size limit exceeded for Base64 API call. Please upload a file smaller than 15MB."

def processCompleteNote : String :=
  "Process complete: Transcription extracted by **" ++ MODEL_NAME ++ "**."

def analysisFailedMsg : String :=
  "The analysis failed. Please check the error messages above for details."

structure UiResult where
  display : Display
  msgs : List UIMsg
  sent : List HttpRequest
  file : FileObj

/-- One press of "Generate Transcript and Summary" (lines 192-208): resolve
the MIME type, enforce the 15 MiB ceiling before any call, otherwise run
`analyze_media_with_apyhub` and render either the markdown document or the
failure box (`if analysis_result and not analysis_result.startswith(...)`). -/
def uiProcess (f : FileObj) (reported : Option String) (apiKey : String)
    (prov : TransportOutcome) (elapsed : String) : UiResult :=
  let mime := resolveMime reported f.name
  if f.size > 15 * 1024 * 1024 then
    { display := .errorBox sizeLimitMsg, msgs := [.error sizeLimitMsg]
    , sent := [], file := f }
  else
    let (log, f2) := analyze_media_with_apyhub f mime apiKey prov elapsed
    let res := log.retVal.1
    if !(res == "") && !pyStartswith "Analysis failed" res then
      { display := .rendered res processCompleteNote
      , msgs := log.msgs ++ [.success processCompleteNote]
      , sent := log.sent, file := f2 }
    else
      { display := .errorBox analysisFailedMsg
      , msgs := log.msgs ++ [.error analysisFailedMsg]
      , sent := log.sent, file := f2 }

/-! ## Startup (lines 13-18) -/

def keyErrorMsg : String :=
  "🚨 API Key Error: Please set \x27APYHUB_API_KEY\x27 in your Streamlit secrets file or Streamlit Cloud Secrets."

/-- `st.secrets[k]`: raises `KeyError` (here: `none`) only when the key is
absent; an empty-string value is returned like any other. -/
def lookupSecret (secrets : List (String × String)) (k : String) : Option String :=
  match secrets with
  | [] => none
  | (k2, v) :: rest => if k2 = k then some v else lookupSecret rest k

inductive AppOutcome where
  /-- `st.stop()` after the startup `st.error`: no request is ever served. -/
  | halted (errMsg : String)
  | served (d : Display) (sent : List HttpRequest)

/-- Requests attempted during a whole app run. -/
def AppOutcome.sentRequests : AppOutcome → List HttpRequest
  | .halted _ => []
  | .served _ sent => sent

/-- A whole run: the `try/except KeyError` of lines 13-18 halts only when
the secret is missing; otherwise the retrieved value (empty or not) becomes
`API_KEY` and the UI flow runs. -/
def appRun (secrets : List (String × String)) (f : FileObj)
    (reported : Option String) (prov : TransportOutcome) (elapsed : String) :
    AppOutcome :=
  match lookupSecret secrets "APYHUB_API_KEY" with
  | none => .halted keyErrorMsg
  | some apiKey =>
      let r := uiProcess f reported apiKey prov elapsed
      .served r.display r.sent

/-! ## Observation helpers for the claims -/

/-- Whether a request body is multipart/form-data. -/
def isMultipartBody : ReqBody → Bool
  | .multipartBody .. => true
  | _ => false

mutual

/-- All object keys occurring anywhere in a JSON value. -/
def jsonKeys : JsonVal → List String
  | .jobj fs => jsonKeysFields fs
  | .jarr xs => jsonKeysList xs
  | _ => []

def jsonKeysList : List JsonVal → List String
  | [] => []
  | v :: rest => jsonKeys v ++ jsonKeysList rest

def jsonKeysFields : List (String × JsonVal) → List String
  | [] => []
  | (k, v) :: rest => k :: (jsonKeys v ++ jsonKeysFields rest)

end

/-! ## Concrete inputs used in counterexamples and witnesses -/

def sampleFile : FileObj := { name := "a.mp3", bytes := [1, 2, 3], pos := 0 }

def hugeFile : FileObj :=
  { name := "big.mp3", bytes := List.replicate (15 * 1024 * 1024 + 1) 0, pos := 0 }

/-- A stubbed provider answering HTTP 200 with body `{"data": "hello world"}`. -/
def helloResponse : TransportOutcome :=
  .httpResponse 200 "OK" "raw" (.ok (.jobj [("data", .jstr "hello world")]))

/-- A stubbed provider answering HTTP 200 with body `{"data": ""}`. -/
def emptyDataResponse : TransportOutcome :=
  .httpResponse 200 "OK" "raw" (.ok (.jobj [("data", .jstr "")]))

/-- A stubbed provider answering HTTP 200 with body `{}` (no `data` field). -/
def missingDataResponse : TransportOutcome :=
  .httpResponse 200 "OK" "raw" (.ok (.jobj []))

/-! ## Helper lemmas -/

theorem b64encodeAux_length : ∀ bs : List Nat,
    (b64encodeAux bs).length = 4 * ((bs.length + 2) / 3)
  | [] => rfl
  | [_] => by simp [b64encodeAux]
  | [_, _] => by simp [b64encodeAux]
  | a :: b :: c :: rest => by
      have ih := b64encodeAux_length rest
      simp [b64encodeAux, ih]
      omega

theorem b64encodeStr_length (bs : List Nat) :
    (b64encodeStr bs).length = 4 * ((bs.length + 2) / 3) := by
  rw [b64encodeStr, String.length_mk, b64encodeAux_length]

theorem isPrefixOf_append_self : ∀ (n post : List Char), n.isPrefixOf (n ++ post) = true
  | [], _ => by simp [List.isPrefixOf]
  | c :: rest, post => by
      simp [List.isPrefixOf, isPrefixOf_append_self rest post]

theorem hasSub_of_isPrefixOf (n hay : List Char) (h : n.isPrefixOf hay = true) :
    hasSub n hay = true := by
  cases hay with
  | nil =>
      cases n with
      | nil => rfl
      | cons c r => simp [List.isPrefixOf] at h
  | cons c rest => simp [hasSub, h]

theorem hasSub_append_left (n hay pre : List Char) (h : hasSub n hay = true) :
    hasSub n (pre ++ hay) = true := by
  induction pre with
  | nil => simpa using h
  | cons c p ih =>
      rw [List.cons_append, hasSub, Bool.or_eq_true]
      exact Or.inr ih

theorem hasSub_mid (n pre post : List Char) : hasSub n (pre ++ (n ++ post)) = true :=
  hasSub_append_left _ _ _ (hasSub_of_isPrefixOf _ _ (isPrefixOf_append_self n post))

/-- Every run of the core function attempts exactly the one request built on
lines 52-83, whatever the provider does. -/
theorem analyzeCore_sent (name : String) (bs : List Nat) (mime apiKey : String)
    (prov : TransportOutcome) (e : String) :
    (analyzeCore name bs mime apiKey prov e).sent
      = [buildRequest (b64encodeStr bs) name mime apiKey] := by
  simp only [analyzeCore]
  cases prov <;> (repeat' split) <;> rfl

/-- The returned pair does not depend on the elapsed-time string (which only
feeds the `st.success` message). -/
theorem analyzeCore_retVal_elapsed (name : String) (bs : List Nat)
    (mime apiKey : String) (prov : TransportOutcome) (e1 e2 : String) :
    (analyzeCore name bs mime apiKey prov e1).retVal
      = (analyzeCore name bs mime apiKey prov e2).retVal := by
  simp only [analyzeCore]
  cases prov <;> (repeat' split) <;> rfl

/-- If the raw upload fits in 15 MiB, the base64 body fits in 20 MiB and the
large-file warning of lines 48-49 is never emitted. -/
theorem analyzeCore_no_warning (name : String) (bs : List Nat)
    (mime apiKey : String) (prov : TransportOutcome) (e : String)
    (h : bs.length ≤ 15 * 1024 * 1024) :
    UIMsg.warning largeFileWarning ∉ (analyzeCore name bs mime apiKey prov e).msgs := by
  have hlen : ¬ ((b64encodeStr bs).length > 20 * 1024 * 1024) := by
    rw [b64encodeStr_length]; omega
  simp only [analyzeCore, if_neg hlen]
  cases prov <;> (repeat' split) <;> simp

theorem isPrefixOf_self (n : List Char) : n.isPrefixOf n = true := by
  have h := isPrefixOf_append_self n []
  rwa [List.append_nil] at h

theorem hasSub_append_right (n pre : List Char) : hasSub n (pre ++ n) = true :=
  hasSub_append_left _ _ _ (hasSub_of_isPrefixOf _ _ (isPrefixOf_self n))

/-- The API-error line displayed on line 117 contains the status code text. -/
theorem apiErrMsg_has_status (status : Nat) (reason text : String) :
    hasSub (toString status).data (apiErrMsg status reason text).data = true := by
  rw [apiErrMsg, httpErrorText]
  simp only [String.data_append, List.append_assoc]
  exact hasSub_mid _ _ _

/-- The API-error line displayed on line 117 contains the raw response body. -/
theorem apiErrMsg_has_body (status : Nat) (reason text : String) :
    hasSub text.data (apiErrMsg status reason text).data = true := by
  rw [apiErrMsg]
  simp only [String.data_append, ← List.append_assoc]
  exact hasSub_append_right _ _

/-- The UI flow leaves the file name, bytes and size unchanged. -/
theorem uiProcess_file_fields (f : FileObj) (rep : Option String) (apiKey : String)
    (prov : TransportOutcome) (e : String) :
    (uiProcess f rep apiKey prov e).file.name = f.name
    ∧ (uiProcess f rep apiKey prov e).file.bytes = f.bytes := by
  simp only [uiProcess, analyze_media_with_apyhub]
  repeat' split
  all_goals exact ⟨rfl, rfl⟩

/-- The rendered outcome depends on the file only through its name and bytes,
and not on the elapsed-time string. -/
theorem uiProcess_display_depends (f g : FileObj) (rep : Option String)
    (apiKey : String) (prov : TransportOutcome) (e1 e2 : String)
    (hn : f.name = g.name) (hb : f.bytes = g.bytes) :
    (uiProcess f rep apiKey prov e1).display = (uiProcess g rep apiKey prov e2).display := by
  obtain ⟨fn, fb, fp⟩ := f
  obtain ⟨gn, gb, gp⟩ := g
  simp only at hn hb
  subst hn; subst hb
  by_cases hsz : FileObj.size ⟨fn, fb, fp⟩ > 15 * 1024 * 1024
  · have hsz2 : FileObj.size ⟨fn, fb, gp⟩ > 15 * 1024 * 1024 := hsz
    simp [uiProcess, hsz, hsz2]
  · have hsz2 : ¬ FileObj.size ⟨fn, fb, gp⟩ > 15 * 1024 * 1024 := hsz
    simp only [uiProcess, analyze_media_with_apyhub, if_neg hsz, if_neg hsz2]
    rw [analyzeCore_retVal_elapsed fn (List.drop 0 fb) (resolveMime rep fn) apiKey prov e1 e2]
    split <;> rfl

/-! ## Claim theorems -/

/-- Claim C1: the spec expects HTTP 200 with body `{"data": "hello world"}`
to yield a success document whose transcript is "hello world".  The code
instead takes `.get` on the string `"hello world"` (line 89), raising
`AttributeError`, which the generic handler turns into the unexpected-error
failure; the UI then shows the failure box, not a document. -/
theorem hello_world_response_misclassified :
    (analyzeCore "a.mp3" [1, 2, 3] "audio/mpeg" "KEY" helloResponse "1.00").retVal
      = ("Analysis failed due to an unexpected error.", "")
    ∧ (uiProcess sampleFile (some "audio/mpeg") "KEY" helloResponse "1.00").display
      = .errorBox analysisFailedMsg := by
  decide

/-- Claim C2 (counterexample): the single outbound request of a concrete
invocation is not a multipart request (so it carries no language form
field either); the body is JSON with the base64 payload. -/
theorem request_not_multipart_cex :
    ((analyze_media_with_apyhub sampleFile "audio/mpeg" "KEY" helloResponse "1.00").1.sent.map
        (fun r => isMultipartBody r.body)) = [false] := by
  decide

/-- Claim C2 (amended): every invocation of the transcription client sends
exactly one request, a JSON request whose body carries the file bytes
base64-encoded together with filename and MIME type, with the credential in
the Authorization header under the Token scheme and no language field
anywhere in the payload. -/
theorem request_shape_json_base64 (f : FileObj) (mime apiKey : String)
    (prov : TransportOutcome) (e : String) :
    (analyze_media_with_apyhub f mime apiKey prov e).1.sent
      = [{ url := STT_ENDPOINT
         , headers := [("Authorization", "Token " ++ apiKey), ("Content-Type", "application/json")]
         , body := .jsonBody (payloadJson (b64encodeStr f.bytes) f.name mime)
         , timeout := 300 }]
    ∧ "language" ∉ jsonKeys (payloadJson (b64encodeStr f.bytes) f.name mime) := by
  constructor
  · have h := analyzeCore_sent f.name f.bytes mime apiKey prov e
    simp only [analyze_media_with_apyhub]
    simp only [List.drop_zero]
    rw [h]
    rfl
  · simp [payloadJson, jsonKeys, jsonKeysFields, jsonKeysList]

/-- Claim C3 (counterexample): a reported type that is present and differs
from `application/octet-stream` is not always returned unchanged — any type
containing the substring "octet-stream" is sent through the extension
fallback instead (line 180 tests substring containment, not equality). -/
theorem mime_reported_type_cex :
    (("binary/octet-stream" : String) ≠ "application/octet-stream"
      ∧ ("binary/octet-stream" : String) ≠ "")
    ∧ resolveMime (some "binary/octet-stream") "a.mp3" = "audio/mpeg"
    ∧ ("audio/mpeg" : String) ≠ "binary/octet-stream" := by
  decide

/-- Claim C3 (amended): MIME resolution is total; a reported type that is
present and does not contain the substring "octet-stream" is returned
unchanged regardless of filename; a missing, empty, or octet-stream-bearing
reported type is mapped through the fixed extension table (case-insensitive
extension, unknown extensions giving application/octet-stream). -/
theorem resolveMime_characterization :
    (∀ (mt fn : String), mt ≠ "" → hasSub "octet-stream".data mt.data = false →
        resolveMime (some mt) fn = mt)
    ∧ (∀ (rep : Option String) (fn : String),
        rep.getD "" = "" ∨ hasSub "octet-stream".data (rep.getD "").data = true →
        resolveMime rep fn = extMimeTable (extToken fn)) := by
  constructor
  · intro mt fn h1 h2
    simp only [resolveMime, Option.getD_some]
    rw [if_neg]
    simp [h1, h2]
  · intro rep fn h
    simp only [resolveMime]
    rw [if_pos h]
    rfl

/-- Witness for `resolveMime_characterization` at concrete inputs. -/
theorem resolveMime_characterization_witness :
    (("audio/mpeg" : String) ≠ ""
      ∧ hasSub "octet-stream".data "audio/mpeg".data = false
      ∧ resolveMime (some "audio/mpeg") "weird.bin" = "audio/mpeg")
    ∧ ((none : Option String).getD "" = ""
      ∧ resolveMime none "A.MP3" = extMimeTable (extToken "A.MP3")) :=
  ⟨⟨by decide, by decide,
      resolveMime_characterization.1 "audio/mpeg" "weird.bin" (by decide) (by decide)⟩,
   ⟨rfl, resolveMime_characterization.2 none "A.MP3" (Or.inl rfl)⟩⟩

/-- Claim C4: a file over the 15 MiB ceiling is rejected with the
file-too-large error box and zero outbound requests (lines 194-197). -/
theorem oversize_rejected_no_network (f : FileObj) (rep : Option String)
    (apiKey : String) (prov : TransportOutcome) (e : String)
    (h : 15 * 1024 * 1024 < f.size) :
    (uiProcess f rep apiKey prov e).display = .errorBox sizeLimitMsg
    ∧ (uiProcess f rep apiKey prov e).sent = [] := by
  refine ⟨?_, ?_⟩ <;> simp [uiProcess, h]

/-- Witness for `oversize_rejected_no_network` at a 15 MiB + 1 byte file. -/
theorem oversize_rejected_no_network_witness :
    15 * 1024 * 1024 < hugeFile.size
    ∧ ((uiProcess hugeFile none "KEY" (.requestFailure "down") "0").display
        = .errorBox sizeLimitMsg
      ∧ (uiProcess hugeFile none "KEY" (.requestFailure "down") "0").sent = []) :=
  ⟨by simp only [hugeFile, FileObj.size, List.length_replicate]; omega,
   oversize_rejected_no_network hugeFile none "KEY" (.requestFailure "down") "0"
     (by simp only [hugeFile, FileObj.size, List.length_replicate]; omega)⟩

/-- Claim C5: the spec expects both a missing and an empty `data` field to
yield the distinct empty-transcript failure.  The missing-field case does,
but an empty string `data` hits the same `AttributeError` slip as C1 and is
classified as an unexpected error instead; in neither case is the result a
success. -/
theorem empty_transcript_classification :
    (analyzeCore "a.mp3" [1, 2, 3] "audio/mpeg" "KEY" emptyDataResponse "1.00").retVal
      = ("Analysis failed due to an unexpected error.", "")
    ∧ (analyzeCore "a.mp3" [1, 2, 3] "audio/mpeg" "KEY" emptyDataResponse "1.00").retVal.1
      ≠ "Analysis failed: No transcript received."
    ∧ (analyzeCore "a.mp3" [1, 2, 3] "audio/mpeg" "KEY" missingDataResponse "1.00").retVal
      = ("Analysis failed: No transcript received.", "")
    ∧ pyStartswith "Analysis failed"
        (analyzeCore "a.mp3" [1, 2, 3] "audio/mpeg" "KEY" emptyDataResponse "1.00").retVal.1
      = true := by
  decide

/-- Claim C6: any response with a 4xx or 5xx status (the statuses
`raise_for_status` treats as errors) yields the API-error classified failure;
the displayed error line carries the status code and the raw response body
as substrings, and the returned text is a failure, never a success. -/
theorem http_error_classified (name : String) (bs : List Nat) (mime apiKey : String)
    (status : Nat) (reason text : String) (jr : Except String JsonVal) (e : String)
    (h4 : 400 ≤ status) (h6 : status < 600) :
    (analyzeCore name bs mime apiKey (.httpResponse status reason text jr) e).retVal
      = ("Analysis failed due to API connection error.", "")
    ∧ UIMsg.error (apiErrMsg status reason text)
        ∈ (analyzeCore name bs mime apiKey (.httpResponse status reason text jr) e).msgs
    ∧ hasSub (toString status).data (apiErrMsg status reason text).data = true
    ∧ hasSub text.data (apiErrMsg status reason text).data = true
    ∧ pyStartswith "Analysis failed"
        (analyzeCore name bs mime apiKey (.httpResponse status reason text jr) e).retVal.1
      = true := by
  have hcond : 400 ≤ status ∧ status < 600 := ⟨h4, h6⟩
  have hret : (analyzeCore name bs mime apiKey (.httpResponse status reason text jr) e).retVal
      = ("Analysis failed due to API connection error.", "") := by
    simp [analyzeCore, hcond]
  refine ⟨hret, ?_, apiErrMsg_has_status status reason text,
    apiErrMsg_has_body status reason text, ?_⟩
  · simp [analyzeCore, hcond]
  · rw [hret]
    decide

/-- Witness for `http_error_classified` at status 401. -/
theorem http_error_classified_witness :
    (400 ≤ 401 ∧ 401 < 600)
    ∧ (analyzeCore "a.mp3" [1, 2, 3] "audio/mpeg" "KEY"
        (.httpResponse 401 "Unauthorized" "denied" (.error "nojson")) "0").retVal
      = ("Analysis failed due to API connection error.", "") :=
  ⟨by decide,
   (http_error_classified "a.mp3" [1, 2, 3] "audio/mpeg" "KEY" 401 "Unauthorized"
     "denied" (.error "nojson") "0" (by decide) (by decide)).1⟩

/-- Claim C7: every request is sent with the fixed 300-second timeout, and a
transport-level failure is classified as the network error, carrying the
underlying cause description in the displayed message, never a success. -/
theorem timeout_and_network_classified :
    (∀ (f : FileObj) (mime apiKey : String) (prov : TransportOutcome) (e : String)
        (r : HttpRequest),
        r ∈ (analyze_media_with_apyhub f mime apiKey prov e).1.sent → r.timeout = 300)
    ∧ (∀ (f : FileObj) (mime apiKey desc e : String),
        (analyze_media_with_apyhub f mime apiKey (.requestFailure desc) e).1.retVal
          = ("Analysis failed due to network or timeout error.", "")
        ∧ UIMsg.error (netErrMsg desc)
            ∈ (analyze_media_with_apyhub f mime apiKey (.requestFailure desc) e).1.msgs
        ∧ pyStartswith "Analysis failed"
            (analyze_media_with_apyhub f mime apiKey (.requestFailure desc) e).1.retVal.1
          = true) := by
  constructor
  · intro f mime apiKey prov e r hr
    have hr2 : r ∈ (analyzeCore f.name f.bytes mime apiKey prov e).sent := hr
    rw [analyzeCore_sent] at hr2
    simp only [List.mem_singleton] at hr2
    subst hr2
    rfl
  · intro f mime apiKey desc e
    refine ⟨rfl, ?_, ?_⟩
    · simp [analyze_media_with_apyhub, analyzeCore]
    · show pyStartswith "Analysis failed"
        "Analysis failed due to network or timeout error." = true
      decide

/-- Witness for `timeout_and_network_classified` at a concrete request. -/
theorem timeout_and_network_classified_witness :
    (buildRequest (b64encodeStr [1, 2, 3]) "a.mp3" "audio/mpeg" "KEY"
        ∈ (analyze_media_with_apyhub sampleFile "audio/mpeg" "KEY"
            (.requestFailure "conn") "0").1.sent)
    ∧ (buildRequest (b64encodeStr [1, 2, 3]) "a.mp3" "audio/mpeg" "KEY").timeout = 300 :=
  ⟨List.Mem.head _,
   timeout_and_network_classified.1 sampleFile "audio/mpeg" "KEY"
     (.requestFailure "conn") "0" _ (List.Mem.head _)⟩

/-- Claim C8 (counterexample): with the secret present but equal to the
empty string, the `KeyError` guard of lines 13-18 does not fire: the app
serves the request and performs a network call whose Authorization header
carries the empty credential ("Token "). -/
theorem empty_credential_cex :
    (appRun [("APYHUB_API_KEY", "")] sampleFile (some "audio/mpeg")
        helloResponse "1.00").sentRequests.length = 1
    ∧ ((appRun [("APYHUB_API_KEY", "")] sampleFile (some "audio/mpeg")
        helloResponse "1.00").sentRequests.map (fun r => r.headers))
      = [[("Authorization", "Token "), ("Content-Type", "application/json")]] := by
  decide

/-- Claim C8 (amended): a credential missing at startup halts the app before
any request is served and before any network call; a present-but-empty
credential does not halt startup and is used as-is in the auth header. -/
theorem missing_credential_halts (secrets : List (String × String)) (f : FileObj)
    (rep : Option String) (prov : TransportOutcome) (e : String)
    (h : lookupSecret secrets "APYHUB_API_KEY" = none) :
    appRun secrets f rep prov e = .halted keyErrorMsg
    ∧ (appRun secrets f rep prov e).sentRequests = [] := by
  refine ⟨?_, ?_⟩ <;> simp [appRun, h, AppOutcome.sentRequests]

/-- Witness for `missing_credential_halts` with an empty secret store. -/
theorem missing_credential_halts_witness :
    lookupSecret [] "APYHUB_API_KEY" = none
    ∧ (appRun [] sampleFile none helloResponse "0" = .halted keyErrorMsg
      ∧ (appRun [] sampleFile none helloResponse "0").sentRequests = []) :=
  ⟨rfl, missing_credential_halts [] sampleFile none helloResponse "0" rfl⟩

/-- Claim C9: pressing the button twice on the same file object against the
same deterministic provider stub renders the same outcome both times — the
`seek(0)` of line 43 resets the read cursor, so the second run reads the
same bytes, and no other state is carried between the calls. -/
theorem process_idempotent (f : FileObj) (rep : Option String) (apiKey : String)
    (prov : TransportOutcome) (e1 e2 : String) :
    (uiProcess f rep apiKey prov e1).display
      = (uiProcess ((uiProcess f rep apiKey prov e1).file) rep apiKey prov e2).display := by
  have h := uiProcess_file_fields f rep apiKey prov e1
  exact uiProcess_display_depends f _ rep apiKey prov e1 e2 h.1.symm h.2.symm

/-- Claim C10: a file admitted by the 15 MiB size check has a base64
encoding of at most 20 MiB, so the large-file warning branch of lines 48-49
is unreachable through the size-checked UI flow — no run of the UI flow ever
emits the warning. -/
theorem base64_within_ui_limit :
    (∀ bs : List Nat, bs.length ≤ 15 * 1024 * 1024 →
        (b64encodeStr bs).length ≤ 20 * 1024 * 1024)
    ∧ (∀ (f : FileObj) (rep : Option String) (apiKey : String)
        (prov : TransportOutcome) (e : String),
        UIMsg.warning largeFileWarning ∉ (uiProcess f rep apiKey prov e).msgs) := by
  have hb : ∀ bs : List Nat, bs.length ≤ 15 * 1024 * 1024 →
      (b64encodeStr bs).length ≤ 20 * 1024 * 1024 := by
    intro bs h
    rw [b64encodeStr_length]
    omega
  refine ⟨hb, ?_⟩
  intro f rep apiKey prov e
  by_cases hsz : f.size > 15 * 1024 * 1024
  · simp [uiProcess, hsz]
  · have hle : f.bytes.length ≤ 15 * 1024 * 1024 := Nat.le_of_not_lt hsz
    have hw := analyzeCore_no_warning f.name f.bytes (resolveMime rep f.name) apiKey prov e hle
    simp only [uiProcess, if_neg hsz, analyze_media_with_apyhub, List.drop_zero]
    split <;> simp [List.mem_append, hw]

/-- Witness for `base64_within_ui_limit` at a three-byte file. -/
theorem base64_within_ui_limit_witness :
    ([0, 0, 0] : List Nat).length ≤ 15 * 1024 * 1024
    ∧ (b64encodeStr [0, 0, 0]).length ≤ 20 * 1024 * 1024 :=
  ⟨by decide, base64_within_ui_limit.1 [0, 0, 0] (by decide)⟩

end SpeechApp
